import Mathlib

/-!
Verification of the QRIS payload codec of AutoFTbot/OrderKuota-go.

The Go sources (qris/qris.go, qris/payment_checker.go) are shallowly
embedded: a Go string is modelled as a `List Char` (the payloads handled
by the package are ASCII, so each character is one byte and Go's
byte-indexed operations coincide with list operations; `Char.toNat` is
the byte value fed to the checksum), `int64` as `Int`, fallible
functions as `Except`.  The external QR renderer and the HTTP layer of
the payment checker are not part of the repository; the renderer is
modelled as an artifact record that always stores the payload handed to
it, and the payment checker is modelled on an already-decoded gateway
response, with the timestamp parser abstracted as a function argument.
-/

set_option maxRecDepth 4000

deriving instance DecidableEq for Except

namespace OrderKuota

/-- A Go string, modelled as its list of characters (bytes for the ASCII
payloads in scope). -/
abbrev GoStr := List Char

/-- Model of `strings.HasPrefix s pre`: does `s` start with `pre`? -/
def startsWith : GoStr → GoStr → Bool
  | _, [] => true
  | [], _ :: _ => false
  | c :: s, p :: ps => c == p && startsWith s ps

/-- Model of `strings.Index s pat`: index of the first occurrence of
`pat` in `s`, `none` when absent (Go returns `-1`). -/
def firstIndex? : GoStr → GoStr → Option Nat
  | [], pat => if startsWith [] pat then some 0 else none
  | c :: s, pat =>
    if startsWith (c :: s) pat then some 0
    else (firstIndex? s pat).map (· + 1)

/-- Model of `strings.Contains s pat` (`strings.Index(s, pat) >= 0`). -/
def containsSub (s pat : GoStr) : Bool := (firstIndex? s pat).isSome

/-- Model of `strings.Replace(s, old, new, 1)`: replace the first
occurrence of `old` by `new`, leaving `s` unchanged when absent. -/
def replaceFirst (s old new : GoStr) : GoStr :=
  match firstIndex? s old with
  | none => s
  | some i => s.take i ++ new ++ s.drop (i + old.length)

/-- One shift round of the CRC loop (qris.go lines 117-123): if the top
bit of the 16-bit register is set, shift left and xor the polynomial
`0x1021`, else just shift left; the shift truncates to 16 bits as Go's
`uint16` arithmetic does. -/
def crcRound (crc : Nat) : Nat :=
  if crc &&& 0x8000 ≠ 0 then ((crc <<< 1) % 65536) ^^^ 0x1021
  else (crc <<< 1) % 65536

/-- Iterated application of `crcRound` (the inner 8-round loop). -/
def crcRounds : Nat → Nat → Nat
  | 0, crc => crc
  | j + 1, crc => crcRounds j (crcRound crc)

/-- The outer byte loop of `generateCRC` (qris.go lines 115-124): xor
the next byte into the high 8 bits of the register, then run 8 shift
rounds.  `b % 256` makes the `uint8` range of Go's `data[i]` explicit. -/
def crcLoop : Nat → List Nat → Nat
  | crc, [] => crc
  | crc, b :: bs => crcLoop (crcRounds 8 (crc ^^^ (((b % 256) <<< 8) % 65536))) bs

/-- Uppercase hexadecimal digit for a nibble (`%X` formatting). -/
def hexDigit (n : Nat) : Char :=
  if n < 10 then Char.ofNat (48 + n) else Char.ofNat (55 + n)

/-- Go's `fmt.Sprintf("%04X", crc)` for a `uint16` value: exactly four
zero-padded uppercase hexadecimal digits. -/
def hex4 (n : Nat) : GoStr :=
  [hexDigit (n / 4096 % 16), hexDigit (n / 256 % 16),
   hexDigit (n / 16 % 16), hexDigit (n % 16)]

/-- Model of `generateCRC` (qris.go lines 113-126): CRC-16/CCITT-FALSE
with initial register `0xFFFF`, rendered as 4 uppercase hex digits.
The method's receiver is unused in Go, so it is a plain function here. -/
def generateCRC (data : GoStr) : GoStr :=
  hex4 (crcLoop 0xFFFF (data.map Char.toNat))

/-- Is `c` one of `0`-`9`, `A`-`F`? -/
def isUpperHexDigit (c : Char) : Bool :=
  (('0' ≤ c) && (c ≤ '9')) || (('A' ≤ c) && (c ≤ 'F'))

/-- Model of `QRISConfig` (qris.go lines 15-19). -/
structure QRISConfig where
  MerchantID : GoStr
  APIKey : GoStr
  BaseQrString : GoStr
deriving DecidableEq

/-- Model of `QRISData` (qris.go lines 23-26). -/
structure QRISData where
  Amount : Int
  TransactionID : GoStr
deriving DecidableEq

/-- Model of `QRIS` (qris.go lines 30-32): just the stored configuration. -/
structure QRIS where
  config : QRISConfig
deriving DecidableEq

/-- The distinct `errors.New` values produced by the package, one
constructor per message; `wrapGenerate` is the `fmt.Errorf` wrapping in
`GenerateQRCode` line 70. -/
inductive QErr where
  | configIncomplete
  | invalidBaseFormat
  | invalidAmount
  | missingTransactionID
  | countryIDNotFound
  | tooShort
  | merchantMismatch
  | invalidAmountFormat
  | invalidChecksum
  | invalidCheckRequest
  | wrapGenerate (e : QErr)
deriving DecidableEq

/-- The country anchor literal `"5802ID"`. -/
def anchorID : GoStr := "5802ID".data

/-- The static point-of-initiation literal `"010211"`. -/
def poiStatic : GoStr := "010211".data

/-- The dynamic point-of-initiation literal `"010212"`. -/
def poiDynamic : GoStr := "010212".data

/-- The amount tag literal `"54"`. -/
def tag54 : GoStr := "54".data

/-- Model of `NewQRIS` (qris.go lines 39-51). -/
def NewQRIS (config : QRISConfig) : Except QErr QRIS :=
  if config.MerchantID = [] ∨ config.APIKey = [] ∨ config.BaseQrString = [] then
    .error .configIncomplete
  else if containsSub config.BaseQrString anchorID = false then
    .error .invalidBaseFormat
  else .ok ⟨config⟩

/-- Decimal rendering of Go's `fmt.Sprintf("%d", n)` for an `int64`. -/
def intStr (n : Int) : GoStr := (toString n).data

/-- Go's `fmt.Sprintf("%02d", n)`: zero-pad to (at least) two digits. -/
def pad2 (n : Nat) : GoStr :=
  if n < 10 then '0' :: (toString n).data else (toString n).data

/-- Model of `generateQRISString` (qris.go lines 89-109): strip the last
4 characters of the base, substitute the first `010211` by `010212`,
insert the `54`-tagged amount immediately before the first `5802ID`,
and append the CRC of everything before it. -/
def generateQRISString (q : QRIS) (data : QRISData) : Except QErr GoStr :=
  let amountStr := intStr data.Amount
  let amountTag := tag54 ++ pad2 amountStr.length ++ amountStr
  let baseString :=
    replaceFirst (q.config.BaseQrString.take (q.config.BaseQrString.length - 4))
      poiStatic poiDynamic
  match firstIndex? baseString anchorID with
  | none => .error .countryIDNotFound
  | some insertPosition =>
    let qrString := baseString.take insertPosition ++ amountTag ++ baseString.drop insertPosition
    .ok (qrString ++ generateCRC qrString)

/-- Model of `ValidateQRISString` (qris.go lines 133-160): length,
country anchor, merchant id, amount marker, then checksum. -/
def ValidateQRISString (q : QRIS) (qrString : GoStr) : Except QErr Unit :=
  if qrString.length < 20 then .error .tooShort
  else if containsSub qrString anchorID = false then .error .countryIDNotFound
  else if containsSub qrString q.config.MerchantID = false then .error .merchantMismatch
  else if containsSub qrString tag54 = false then .error .invalidAmountFormat
  else if generateCRC (qrString.take (qrString.length - 4)) ≠ qrString.drop (qrString.length - 4) then
    .error .invalidChecksum
  else .ok ()

/-- Model of `GetQRISString` (qris.go lines 167-177). -/
def GetQRISString (q : QRIS) (data : QRISData) : Except QErr GoStr :=
  if data.Amount ≤ 0 then .error .invalidAmount
  else if data.TransactionID = [] then .error .missingTransactionID
  else generateQRISString q data

/-- An RGBA color as used with `image/color`. -/
structure GoColor where
  r : Nat
  g : Nat
  b : Nat
  a : Nat
deriving DecidableEq

/-- The color `color.Black`. -/
def colorBlack : GoColor := ⟨0, 0, 0, 255⟩

/-- The color `color.White`. -/
def colorWhite : GoColor := ⟨255, 255, 255, 255⟩

/-- Error-correction level of the external renderer. -/
inductive RecoveryLevel where
  | low
  | medium
  | high
  | highest
deriving DecidableEq

/-- The artifact returned by the external QR renderer, reduced to the
fields the Go code sets: encoded content, correction level, border flag
and colors. -/
structure QRCode where
  Content : GoStr
  Level : RecoveryLevel
  DisableBorder : Bool
  ForegroundColor : GoColor
  BackgroundColor : GoColor
deriving DecidableEq

/-- The external `qrcode.New(content, level)` call, modelled as always
returning an artifact that stores the handed payload (the renderer's
internal failure modes are outside this repository). -/
def qrcodeNew (content : GoStr) (level : RecoveryLevel) : QRCode :=
  ⟨content, level, false, colorBlack, colorWhite⟩

/-- Model of `GenerateQRCode` (qris.go lines 58-85): the same input
validation as `GetQRISString`, then hand the generated payload to the
renderer and set border and colors (lines 80-82). -/
def GenerateQRCode (q : QRIS) (data : QRISData) : Except QErr QRCode :=
  if data.Amount ≤ 0 then .error .invalidAmount
  else if data.TransactionID = [] then .error .missingTransactionID
  else
    match generateQRISString q data with
    | .error e => .error (.wrapGenerate e)
    | .ok qrString =>
      let qrCode := qrcodeNew qrString .high
      .ok ⟨qrCode.Content, qrCode.Level, false, colorBlack, colorWhite⟩

/-- Is an `Except` value a success? -/
def isOkExcept {ε α : Type} : Except ε α → Bool
  | .ok _ => true
  | .error _ => false

/-- One decoded gateway transaction (payment_checker.go lines 70-78). -/
structure GatewayTx where
  Amount : GoStr
  Date : GoStr
  QRIS : GoStr
  TxType : GoStr
  IssuerRef : GoStr
  BrandName : GoStr
  BuyerRef : GoStr
deriving DecidableEq

/-- The decoded gateway response (payment_checker.go lines 68-79). -/
structure GatewayResponse where
  Status : GoStr
  Data : List GatewayTx
deriving DecidableEq

/-- Model of `PaymentStatus` (payment_checker.go lines 12-19). -/
structure PaymentStatus where
  Status : GoStr
  Amount : Int
  Reference : GoStr
  Date : GoStr
  BrandName : GoStr
  BuyerRef : GoStr
deriving DecidableEq

/-- Value of a decimal digit character. -/
def digitVal? (c : Char) : Option Nat :=
  if '0' ≤ c ∧ c ≤ '9' then some (c.toNat - 48) else none

/-- Accumulate the decimal value of a digit run, `none` at the first
non-digit. -/
def digitsLoop : GoStr → Nat → Option Nat
  | [], acc => some acc
  | c :: rest, acc =>
    match digitVal? c with
    | some d => digitsLoop rest (acc * 10 + d)
    | none => none

/-- Decimal value of a non-empty all-digit string. -/
def digitsVal? : GoStr → Option Nat
  | [] => none
  | cs => digitsLoop cs 0

/-- The value of `math.MaxInt64`. -/
def int64Max : Nat := 9223372036854775807

/-- Model of `strconv.ParseInt(s, 10, 64)` with the error discarded, as
the checker does (`txAmount, _ := ...`): optional sign, decimal digits,
`0` on any syntax error, clamped to the `int64` range on overflow. -/
def parseInt64 (s : GoStr) : Int :=
  match s with
  | '+' :: rest =>
    (match digitsVal? rest with
     | some v => Int.ofNat (min v int64Max)
     | none => 0)
  | '-' :: rest =>
    (match digitsVal? rest with
     | some v => -(Int.ofNat (min v (int64Max + 1)))
     | none => 0)
  | _ =>
    (match digitsVal? s with
     | some v => Int.ofNat (min v int64Max)
     | none => 0)

/-- The literal `"success"`. -/
def statusSuccess : GoStr := "success".data

/-- The literal `"static"`. -/
def qrisStatic : GoStr := "static".data

/-- The literal `"CR"`. -/
def typeCR : GoStr := "CR".data

/-- The literal `"PAID"`. -/
def statusPaid : GoStr := "PAID".data

/-- The literal `"UNPAID"`. -/
def statusUnpaid : GoStr := "UNPAID".data

/-- The duration of 30 minutes (`30 * time.Minute`) in nanoseconds. -/
def thirtyMinutes : Int := 1800000000000

/-- The matching condition of the transaction loop
(payment_checker.go lines 109-112): exact parsed amount, `qris ==
"static"`, `type == "CR"`, and `time.Since(txDate) <= 30*time.Minute`.
`pd` abstracts `time.Parse(time.RFC3339, ·)` (composed with the clock
representation), `now` the current time. -/
def txMatches (pd : GoStr → Int) (now amount : Int) (tx : GatewayTx) : Bool :=
  parseInt64 tx.Amount == amount && tx.QRIS == qrisStatic && tx.TxType == typeCR &&
    decide (now - pd tx.Date ≤ thirtyMinutes)

/-- The latest-transaction selection loop (payment_checker.go lines
120-129): keep the current candidate and its parsed date, replace it
whenever a later transaction appears. -/
def latestLoop (pd : GoStr → Int) : GatewayTx → Int → List GatewayTx → GatewayTx × Int
  | cur, curD, [] => (cur, curD)
  | cur, curD, tx :: rest =>
    if curD < pd tx.Date then latestLoop pd tx (pd tx.Date) rest
    else latestLoop pd cur curD rest

/-- Model of `CheckPaymentStatus` (payment_checker.go lines 45-147) on
an already-decoded gateway response: reject an empty reference or
non-positive amount, return `UNPAID` unless the response is a
non-empty success, otherwise filter the matching transactions and
return `PAID` with the most recent one when any exists. -/
def CheckPaymentStatus (pd : GoStr → Int) (now : Int) (reference : GoStr)
    (amount : Int) (resp : GatewayResponse) : Except QErr PaymentStatus :=
  if reference = [] ∨ amount ≤ 0 then .error .invalidCheckRequest
  else if resp.Status ≠ statusSuccess ∨ resp.Data = [] then
    .ok ⟨statusUnpaid, amount, reference, [], [], []⟩
  else
    match resp.Data.filter (txMatches pd now amount) with
    | [] => .ok ⟨statusUnpaid, amount, reference, [], [], []⟩
    | t :: rest =>
      let latestTx := (latestLoop pd t (pd t.Date) rest).1
      .ok ⟨statusPaid, parseInt64 latestTx.Amount, latestTx.IssuerRef,
           latestTx.Date, latestTx.BrandName, latestTx.BuyerRef⟩

/-! Concrete inputs used by the witnesses and counterexamples below. -/

/-- A well-formed base payload: version tag, static point-of-initiation
tag, country anchor, and a trailing 4-character checksum slot. -/
def wBaseQr : GoStr := "0002010102115802IDABCD".data

/-- A configuration accepted by `NewQRIS` whose merchant id survives
payload construction. -/
def wCfg : QRISConfig := ⟨"0002".data, "K".data, wBaseQr⟩

/-- A transaction request for amount 1000. -/
def wData : QRISData := ⟨1000, "T1".data⟩

/-- The checksum input of the payload built from `wCfg` and `wData`. -/
def wQRString : GoStr := "000201010212540410005802ID".data

/-- The payload built from `wCfg` and `wData`. -/
def wPayload : GoStr := wQRString ++ generateCRC wQRString

/-- The checksum input of the payload built from `wCfg` at amount 1. -/
def w1QRString : GoStr := "000201010212540115802ID".data

/-- The payload built from `wCfg` at amount 1. -/
def w1Payload : GoStr := w1QRString ++ generateCRC w1QRString

/-- A base payload that genuinely ends in its own 4-character checksum
and contains the anchor, but is only 10 characters long. -/
def cxBase : GoStr := anchorID ++ generateCRC anchorID

/-- A configuration built from `cxBase`; its merchant id `"D"` occurs in
the base. -/
def cxCfg : QRISConfig := ⟨"D".data, "K".data, cxBase⟩

/-- The transaction request used with `cxCfg`. -/
def cxData : QRISData := ⟨1000, "T1".data⟩

/-- The checksum input of the payload built from `cxCfg` at amount
1000. -/
def cxQRString : GoStr := "540410005802ID".data

/-- The payload built from `cxCfg` at amount 1000: 18 characters. -/
def cxPayload : GoStr := cxQRString ++ generateCRC cxQRString

/-- A base accepted by `NewQRIS` whose only anchor occurrence overlaps
the stripped trailing 4 characters. -/
def cx3Cfg : QRISConfig := ⟨"M".data, "K".data, "AB5802ID".data⟩

/-- A second such base, for the unreachability claim. -/
def cx9Cfg : QRISConfig := ⟨"M".data, "K".data, "XY5802ID".data⟩

/-- A gateway transaction matching amount 5000 under the abstract
timestamp parser `wParseDate` at time 100. -/
def wTx : GatewayTx :=
  ⟨"5000".data, "2025-01-01T00:00:00Z".data, "static".data, "CR".data,
   "ISS1".data, "BCA".data, "BY1".data⟩

/-- A successful gateway response holding just `wTx`. -/
def wResp : GatewayResponse := ⟨"success".data, [wTx]⟩

/-- A concrete abstract timestamp parser: every date reads as 100. -/
def wParseDate : GoStr → Int := fun _ => 100

/-! ### Lemmas about the string primitives -/

theorem startsWith_iff (s p : GoStr) : startsWith s p = true ↔ p <+: s := by
  induction s generalizing p with
  | nil =>
    cases p with
    | nil => simp [startsWith]
    | cons b bs => simp [startsWith]
  | cons c s ih =>
    cases p with
    | nil => simp [startsWith]
    | cons b bs =>
      simp only [startsWith, Bool.and_eq_true, beq_iff_eq, ih, List.cons_prefix_cons]
      constructor
      · rintro ⟨h1, h2⟩
        exact ⟨h1.symm, h2⟩
      · rintro ⟨h1, h2⟩
        exact ⟨h1.symm, h2⟩

theorem firstIndex_isSome_iff (s pat : GoStr) :
    (firstIndex? s pat).isSome = true ↔ pat <:+: s := by
  induction s with
  | nil =>
    cases p : pat with
    | nil => simp [firstIndex?, startsWith]
    | cons b bs => simp [firstIndex?, startsWith]
  | cons c s ih =>
    by_cases h : startsWith (c :: s) pat = true
    · simp only [firstIndex?, if_pos h, Option.isSome_some, true_iff]
      exact ((startsWith_iff _ pat).mp h).isInfix
    · have h' : ¬ pat <+: (c :: s) := fun hp => h ((startsWith_iff _ pat).mpr hp)
      rw [firstIndex?, if_neg h, Option.isSome_map', ih]
      constructor
      · exact List.infix_cons
      · intro hi
        rcases List.infix_cons_iff.mp hi with hp | hi'
        · exact absurd hp h'
        · exact hi'

theorem containsSub_iff (s pat : GoStr) : containsSub s pat = true ↔ pat <:+: s := by
  unfold containsSub
  exact firstIndex_isSome_iff s pat

theorem firstIndex_drop (s pat : GoStr) (i : Nat) (h : firstIndex? s pat = some i) :
    pat <+: s.drop i := by
  induction s generalizing i with
  | nil =>
    by_cases hc : startsWith [] pat = true
    · rw [firstIndex?, if_pos hc] at h
      injection h with h'
      subst h'
      simpa using (startsWith_iff [] pat).mp hc
    · rw [firstIndex?, if_neg hc] at h
      cases h
  | cons c s ih =>
    by_cases hc : startsWith (c :: s) pat = true
    · rw [firstIndex?, if_pos hc] at h
      injection h with h'
      subst h'
      simpa using (startsWith_iff _ pat).mp hc
    · rw [firstIndex?, if_neg hc] at h
      rcases Option.map_eq_some'.mp h with ⟨j, hj, hji⟩
      subst hji
      simpa using ih j hj

/-! ### Lemmas about the checksum engine -/

theorem crcRound_lt (c : Nat) : crcRound c < 65536 := by
  rw [crcRound]
  split
  · have h1 : (c <<< 1) % 65536 < 2 ^ 16 := by
      calc (c <<< 1) % 65536 < 65536 := Nat.mod_lt _ (by norm_num)
      _ = 2 ^ 16 := by norm_num
    have h2 : (4129 : Nat) < 2 ^ 16 := by norm_num
    calc ((c <<< 1) % 65536) ^^^ 4129 < 2 ^ 16 := Nat.xor_lt_two_pow h1 h2
    _ = 65536 := by norm_num
  · exact Nat.mod_lt _ (by norm_num)

theorem crcRounds_lt (j : Nat) : ∀ c : Nat, c < 65536 → crcRounds j c < 65536 := by
  induction j with
  | zero => intro c hc; simpa [crcRounds] using hc
  | succ j ih =>
    intro c _
    rw [crcRounds]
    exact ih _ (crcRound_lt c)

theorem crcLoop_lt (bs : List Nat) : ∀ c : Nat, c < 65536 → crcLoop c bs < 65536 := by
  induction bs with
  | nil => intro c hc; simpa [crcLoop] using hc
  | cons b bs ih =>
    intro c hc
    rw [crcLoop]
    apply ih
    apply crcRounds_lt
    have h1 : c < 2 ^ 16 := by
      calc c < 65536 := hc
      _ = 2 ^ 16 := by norm_num
    have h2 : ((b % 256) <<< 8) % 65536 < 2 ^ 16 := by
      calc ((b % 256) <<< 8) % 65536 < 65536 := Nat.mod_lt _ (by norm_num)
      _ = 2 ^ 16 := by norm_num
    calc c ^^^ (((b % 256) <<< 8) % 65536) < 2 ^ 16 := Nat.xor_lt_two_pow h1 h2
    _ = 65536 := by norm_num

theorem hexDigit_mod16_upper (k : Nat) : isUpperHexDigit (hexDigit (k % 16)) = true := by
  have hall : ∀ m, m < 16 → isUpperHexDigit (hexDigit m) = true := by decide
  exact hall _ (Nat.mod_lt _ (by norm_num))

theorem generateCRC_length (x : GoStr) : (generateCRC x).length = 4 := rfl

theorem generateCRC_all_upperHex (x : GoStr) :
    (generateCRC x).all isUpperHexDigit = true := by
  rw [generateCRC, hex4]
  simp [hexDigit_mod16_upper]

/-! ### The claims -/

/-- C2: `generateCRC` realizes the CRC-16/CCITT-FALSE algorithm over any
byte sequence, including the empty one: its loop is total, the 16-bit
register never escapes `uint16` range, the rendered checksum is exactly
4 zero-padded uppercase hexadecimal digits, and the standard check
vector holds: `generateCRC "123456789" = "29B1"`. -/
theorem generateCRC_spec :
    (∀ data : GoStr,
      (generateCRC data).length = 4 ∧ (generateCRC data).all isUpperHexDigit = true) ∧
    (∀ bs : List Nat, crcLoop 0xFFFF bs < 65536) ∧
    generateCRC ("123456789".data) = "29B1".data := by
  refine ⟨fun data => ⟨generateCRC_length data, generateCRC_all_upperHex data⟩,
    fun bs => crcLoop_lt bs 0xFFFF (by norm_num), by decide⟩

/-- C4: `ValidateQRISString` performs its five checks in order — length
at least 20, country anchor present, merchant id present, amount marker
`54` present, recomputed checksum equal (case-sensitively) to the
trailing 4 characters — each failure short-circuiting with its own
distinct error, success otherwise. -/
theorem validateQRISString_cases (q : QRIS) (s : GoStr) :
    (s.length < 20 → ValidateQRISString q s = .error .tooShort) ∧
    (¬ s.length < 20 → containsSub s anchorID = false →
      ValidateQRISString q s = .error .countryIDNotFound) ∧
    (¬ s.length < 20 → containsSub s anchorID = true →
      containsSub s q.config.MerchantID = false →
      ValidateQRISString q s = .error .merchantMismatch) ∧
    (¬ s.length < 20 → containsSub s anchorID = true →
      containsSub s q.config.MerchantID = true → containsSub s tag54 = false →
      ValidateQRISString q s = .error .invalidAmountFormat) ∧
    (¬ s.length < 20 → containsSub s anchorID = true →
      containsSub s q.config.MerchantID = true → containsSub s tag54 = true →
      generateCRC (s.take (s.length - 4)) ≠ s.drop (s.length - 4) →
      ValidateQRISString q s = .error .invalidChecksum) ∧
    (¬ s.length < 20 → containsSub s anchorID = true →
      containsSub s q.config.MerchantID = true → containsSub s tag54 = true →
      generateCRC (s.take (s.length - 4)) = s.drop (s.length - 4) →
      ValidateQRISString q s = .ok ()) := by
  refine ⟨?_, ?_, ?_, ?_, ?_, ?_⟩
  · intro h1
    rw [ValidateQRISString, if_pos h1]
  · intro h1 h2
    rw [ValidateQRISString, if_neg h1, if_pos h2]
  · intro h1 h2 h3
    rw [ValidateQRISString, if_neg h1, if_neg (by simp [h2]), if_pos h3]
  · intro h1 h2 h3 h4
    rw [ValidateQRISString, if_neg h1, if_neg (by simp [h2]), if_neg (by simp [h3]),
      if_pos h4]
  · intro h1 h2 h3 h4 h5
    rw [ValidateQRISString, if_neg h1, if_neg (by simp [h2]), if_neg (by simp [h3]),
      if_neg (by simp [h4]), if_pos h5]
  · intro h1 h2 h3 h4 h5
    rw [ValidateQRISString, if_neg h1, if_neg (by simp [h2]), if_neg (by simp [h3]),
      if_neg (by simp [h4]), if_neg (not_not_intro h5)]

/-- The all-checks-pass branch of C4, instantiated on a concrete valid
payload. -/
theorem validateQRISString_cases_witness :
    ValidateQRISString ⟨wCfg⟩ wPayload = .ok () :=
  (validateQRISString_cases ⟨wCfg⟩ wPayload).2.2.2.2.2 (by decide) (by decide)
    (by decide) (by decide) (by decide)

/-- C5: `NewQRIS` succeeds, returning an instance storing exactly the
given configuration, iff the merchant id, API key and base string are
all non-empty and the base string contains the anchor `5802ID`; in
every other case it returns an error and no instance. -/
theorem newQRIS_spec (cfg : QRISConfig) :
    (NewQRIS cfg = .ok ⟨cfg⟩ ↔
      (cfg.MerchantID ≠ [] ∧ cfg.APIKey ≠ [] ∧ cfg.BaseQrString ≠ [] ∧
        containsSub cfg.BaseQrString anchorID = true)) ∧
    (isOkExcept (NewQRIS cfg) = false ↔
      (cfg.MerchantID = [] ∨ cfg.APIKey = [] ∨ cfg.BaseQrString = [] ∨
        containsSub cfg.BaseQrString anchorID = false)) ∧
    (∀ q : QRIS, NewQRIS cfg = .ok q → q.config = cfg) := by
  rw [NewQRIS]
  by_cases h1 : cfg.MerchantID = [] ∨ cfg.APIKey = [] ∨ cfg.BaseQrString = []
  · rw [if_pos h1]
    refine ⟨?_, ?_, ?_⟩
    · constructor
      · intro hab
        exact absurd hab (by simp)
      · rintro ⟨hm, hk, hb, _⟩
        rcases h1 with h | h | h <;> contradiction
    · simp only [isOkExcept, true_iff]
      tauto
    · intro q hq
      exact absurd hq (by simp)
  · rw [if_neg h1]
    push_neg at h1
    obtain ⟨hm, hk, hb⟩ := h1
    by_cases h2 : containsSub cfg.BaseQrString anchorID = false
    · rw [if_pos h2]
      refine ⟨?_, ?_, ?_⟩
      · constructor
        · intro hab
          exact absurd hab (by simp)
        · rintro ⟨_, _, _, hc⟩
          rw [hc] at h2
          cases h2
      · simp only [isOkExcept, true_iff]
        tauto
      · intro q hq
        exact absurd hq (by simp)
    · have h2' : containsSub cfg.BaseQrString anchorID = true := by
        revert h2
        cases containsSub cfg.BaseQrString anchorID <;> simp
      rw [if_neg h2]
      refine ⟨by simp [hm, hk, hb, h2'], ?_, ?_⟩
      · simp [isOkExcept, hm, hk, hb, h2']
      · intro q hq
        injection hq with h'
        rw [← h']

/-- The success case of C5 at a concrete accepted configuration. -/
theorem newQRIS_spec_witness :
    NewQRIS wCfg = .ok ⟨wCfg⟩ ∧ (⟨wCfg⟩ : QRIS).config = wCfg := by
  have h := (newQRIS_spec wCfg).1.mpr ⟨by decide, by decide, by decide, by decide⟩
  exact ⟨h, (newQRIS_spec wCfg).2.2 ⟨wCfg⟩ h⟩

/-- C8: the codec functions are deterministic pure functions of their
arguments and the stored configuration: equal configurations give equal
results, and (the embedding being functional) no call changes the
instance. -/
theorem codec_pure (q q' : QRIS) (x s : GoStr) (d : QRISData) :
    generateCRC x = generateCRC x ∧
    GetQRISString q d = GetQRISString q d ∧
    ValidateQRISString q s = ValidateQRISString q s ∧
    (q.config = q'.config →
      GetQRISString q d = GetQRISString q' d ∧
      ValidateQRISString q s = ValidateQRISString q' s ∧
      GenerateQRCode q d = GenerateQRCode q' d) := by
  refine ⟨rfl, rfl, rfl, fun h => ?_⟩
  obtain ⟨c⟩ := q
  obtain ⟨c'⟩ := q'
  cases h
  exact ⟨rfl, rfl, rfl⟩

/-- C3 (amended): for every configuration and data with positive amount
and non-empty transaction id, provided the base with its last 4
characters removed and the `010211`→`010212` substitution applied still
contains `5802ID` at first index `i`, `GetQRISString` returns exactly
that transformed base with the `54`-tagged amount (2-digit length
prefix, decimal value) inserted at `i`, followed by the 4-hex-digit
CRC16 of everything before it. -/
theorem getQRISString_shape (cfg : QRISConfig) (d : QRISData) (B amt : GoStr) (i : Nat)
    (hB : B = replaceFirst (cfg.BaseQrString.take (cfg.BaseQrString.length - 4))
      poiStatic poiDynamic)
    (hamt : amt = tag54 ++ pad2 (intStr d.Amount).length ++ intStr d.Amount)
    (ha : 0 < d.Amount) (ht : d.TransactionID ≠ [])
    (hfi : firstIndex? B anchorID = some i) :
    GetQRISString ⟨cfg⟩ d =
      .ok (B.take i ++ amt ++ B.drop i ++ generateCRC (B.take i ++ amt ++ B.drop i)) := by
  subst hB hamt
  rw [GetQRISString, if_neg (by omega), if_neg ht]
  simp only [generateQRISString, hfi]

/-- C3 counterexample: `cx3Cfg` is accepted by `NewQRIS` and the data
is positive with a transaction id, yet `GetQRISString` returns no
string at all — stripping the trailing 4 characters destroys the only
anchor occurrence of the base `"AB5802ID"`. -/
theorem getQRISString_shape_counterexample :
    NewQRIS cx3Cfg = .ok ⟨cx3Cfg⟩ ∧
    GetQRISString ⟨cx3Cfg⟩ ⟨1000, "T1".data⟩ = .error .countryIDNotFound :=
  ⟨by decide, by decide⟩

/-- C3 instantiated on a concrete well-formed base and amount 1000. -/
theorem getQRISString_shape_witness :
    GetQRISString ⟨wCfg⟩ wData = .ok wPayload := by
  have h := getQRISString_shape wCfg wData
    (replaceFirst (wCfg.BaseQrString.take (wCfg.BaseQrString.length - 4)) poiStatic poiDynamic)
    (tag54 ++ pad2 (intStr wData.Amount).length ++ intStr wData.Amount) 12 rfl rfl
    (by decide) (by decide) (by decide)
  exact h.trans (by decide)

/-- C9 (amended): after `NewQRIS` acceptance the country-not-found
branch of `generateQRISString` is unreachable provided the anchor still
occurs once the last 4 characters are stripped and the
point-of-initiation substitution is applied; under that proviso
`GetQRISString` always returns a payload on valid data. -/
theorem countryBranch_unreachable (cfg : QRISConfig) (d : QRISData)
    (ha : 0 < d.Amount) (ht : d.TransactionID ≠ [])
    (hc : containsSub (replaceFirst (cfg.BaseQrString.take (cfg.BaseQrString.length - 4))
      poiStatic poiDynamic) anchorID = true) :
    ∃ s : GoStr, GetQRISString ⟨cfg⟩ d = .ok s := by
  have hsome : (firstIndex? (replaceFirst (cfg.BaseQrString.take
      (cfg.BaseQrString.length - 4)) poiStatic poiDynamic) anchorID).isSome = true := hc
  obtain ⟨i, hi⟩ := Option.isSome_iff_exists.mp hsome
  simp only [GetQRISString, if_neg (show ¬ d.Amount ≤ 0 by omega), if_neg ht,
    generateQRISString, hi]
  exact ⟨_, rfl⟩

/-- C9 counterexample: `cx9Cfg` passes the `NewQRIS` anchor check, the
data is valid, and yet the country-not-found branch is reached, because
stripping the trailing 4 characters of `"XY5802ID"` destroys the
anchor. -/
theorem countryBranch_counterexample :
    NewQRIS cx9Cfg = .ok ⟨cx9Cfg⟩ ∧
    containsSub cx9Cfg.BaseQrString anchorID = true ∧
    GetQRISString ⟨cx9Cfg⟩ ⟨500, "T9".data⟩ = .error .countryIDNotFound :=
  ⟨by decide, by decide, by decide⟩

/-- C9 instantiated on a base whose anchor survives the stripping. -/
theorem countryBranch_unreachable_witness :
    ∃ s : GoStr, GetQRISString ⟨wCfg⟩ wData = .ok s :=
  countryBranch_unreachable wCfg wData (by decide) (by decide) (by decide)

/-- C6: non-positive amounts are rejected by both `GetQRISString` and
`GenerateQRCode` with the invalid-amount error and no payload, an empty
transaction id with the missing-transaction-id error, and amount 1 with
a non-empty transaction id succeeds on a base whose anchor survives,
inserting the amount field `54`+`01`+`1` (length tag `01`). -/
theorem getQRISString_boundary (cfg : QRISConfig) (d : QRISData) :
    (d.Amount ≤ 0 →
      GetQRISString ⟨cfg⟩ d = .error .invalidAmount ∧
      GenerateQRCode ⟨cfg⟩ d = .error .invalidAmount) ∧
    (0 < d.Amount → d.TransactionID = [] →
      GetQRISString ⟨cfg⟩ d = .error .missingTransactionID ∧
      GenerateQRCode ⟨cfg⟩ d = .error .missingTransactionID) ∧
    (∀ (d' : QRISData) (B : GoStr) (i : Nat), d'.Amount = 1 → d'.TransactionID ≠ [] →
      B = replaceFirst (cfg.BaseQrString.take (cfg.BaseQrString.length - 4))
        poiStatic poiDynamic →
      firstIndex? B anchorID = some i →
      GetQRISString ⟨cfg⟩ d' =
        .ok (B.take i ++ (tag54 ++ "01".data ++ "1".data) ++ B.drop i ++
          generateCRC (B.take i ++ (tag54 ++ "01".data ++ "1".data) ++ B.drop i))) := by
  refine ⟨?_, ?_, ?_⟩
  · intro h
    exact ⟨by rw [GetQRISString, if_pos h], by rw [GenerateQRCode, if_pos h]⟩
  · intro h1 h2
    exact ⟨by rw [GetQRISString, if_neg (by omega), if_pos h2],
      by rw [GenerateQRCode, if_neg (by omega), if_pos h2]⟩
  · intro d' B i h1 ht hB hfi
    subst hB
    rw [GetQRISString, if_neg (by omega), if_neg ht]
    simp only [generateQRISString, hfi, h1]
    rfl

/-- C6 instantiated: rejected amount 0, rejected empty transaction id,
and the `5401`+`1` field at amount 1 on a concrete base. -/
theorem getQRISString_boundary_witness :
    GetQRISString ⟨wCfg⟩ ⟨0, "T1".data⟩ = .error .invalidAmount ∧
    GetQRISString ⟨wCfg⟩ ⟨5, []⟩ = .error .missingTransactionID ∧
    GetQRISString ⟨wCfg⟩ ⟨1, "T1".data⟩ = .ok w1Payload := by
  refine ⟨((getQRISString_boundary wCfg ⟨0, "T1".data⟩).1 (by decide)).1,
    ((getQRISString_boundary wCfg ⟨5, []⟩).2.1 (by decide) rfl).1, ?_⟩
  have h := (getQRISString_boundary wCfg ⟨1, "T1".data⟩).2.2 ⟨1, "T1".data⟩
    (replaceFirst (wCfg.BaseQrString.take (wCfg.BaseQrString.length - 4)) poiStatic poiDynamic)
    12 rfl (by decide) rfl (by decide)
  exact h.trans (by decide)

/-- C10: `GenerateQRCode` and `GetQRISString` accept and reject exactly
the same inputs, and on success the QR artifact stores exactly the
payload `GetQRISString` returns (at high error correction, border
enabled, black on white). -/
theorem generateQRCode_agree (q : QRIS) (d : QRISData) :
    (isOkExcept (GenerateQRCode q d) = isOkExcept (GetQRISString q d)) ∧
    (∀ s : GoStr, GetQRISString q d = .ok s →
      GenerateQRCode q d = .ok ⟨s, .high, false, colorBlack, colorWhite⟩) ∧
    (∀ c : QRCode, GenerateQRCode q d = .ok c → GetQRISString q d = .ok c.Content) := by
  by_cases h1 : d.Amount ≤ 0
  · rw [GenerateQRCode, GetQRISString, if_pos h1, if_pos h1]
    refine ⟨rfl, ?_, ?_⟩
    · intro s hs
      cases hs
    · intro c hc
      cases hc
  · by_cases h2 : d.TransactionID = []
    · rw [GenerateQRCode, GetQRISString, if_neg h1, if_neg h1, if_pos h2, if_pos h2]
      refine ⟨rfl, ?_, ?_⟩
      · intro s hs
        cases hs
      · intro c hc
        cases hc
    · rw [GenerateQRCode, GetQRISString, if_neg h1, if_neg h1, if_neg h2, if_neg h2]
      cases hg : generateQRISString q d with
      | error e =>
        simp only [hg]
        refine ⟨rfl, ?_, ?_⟩
        · intro s hs
          cases hs
        · intro c hc
          cases hc
      | ok s0 =>
        simp only [hg]
        refine ⟨rfl, ?_, ?_⟩
        · intro s hs
          injection hs with h'
          subst h'
          rfl
        · intro c hc
          injection hc with h'
          rw [← h']
          rfl

/-- C10 instantiated: the QR artifact built from a concrete request
stores exactly the payload string. -/
theorem generateQRCode_agree_witness :
    GenerateQRCode ⟨wCfg⟩ wData = .ok ⟨wPayload, .high, false, colorBlack, colorWhite⟩ :=
  (generateQRCode_agree ⟨wCfg⟩ wData).2.1 wPayload (by decide)

/-- A built payload `qs ++ crc(qs)` passes validation as soon as the
anchor, the merchant id and the `54` marker occur in it and it is at
least 20 characters long: the checksum check always succeeds on it. -/
theorem validate_ok_of (q : QRIS) (qs : GoStr)
    (hanch : containsSub (qs ++ generateCRC qs) anchorID = true)
    (hm : containsSub (qs ++ generateCRC qs) q.config.MerchantID = true)
    (h54 : containsSub (qs ++ generateCRC qs) tag54 = true)
    (hlen : 20 ≤ (qs ++ generateCRC qs).length) :
    ValidateQRISString q (qs ++ generateCRC qs) = .ok () := by
  have hlen2 : (qs ++ generateCRC qs).length - 4 = qs.length := by
    simp [List.length_append, generateCRC_length]
  have hcrceq : generateCRC ((qs ++ generateCRC qs).take ((qs ++ generateCRC qs).length - 4)) =
      (qs ++ generateCRC qs).drop ((qs ++ generateCRC qs).length - 4) := by
    rw [hlen2, List.take_left, List.drop_left]
  rw [ValidateQRISString, if_neg (by omega), if_neg (by simp [hanch]),
    if_neg (by simp [hm]), if_neg (by simp [h54]), if_neg (not_not_intro hcrceq)]

/-- C1 (amended): a payload produced by `GetQRISString` passes
`ValidateQRISString` provided it is at least 20 characters long and
still contains the configured merchant id; without those provisos the
round trip can fail, see the counterexample. -/
theorem buildValidate_roundtrip (q : QRIS) (d : QRISData) (s : GoStr)
    (hgen : GetQRISString q d = .ok s)
    (hlen : 20 ≤ s.length)
    (hm : containsSub s q.config.MerchantID = true) :
    ValidateQRISString q s = .ok () := by
  rw [GetQRISString] at hgen
  by_cases h1 : d.Amount ≤ 0
  · rw [if_pos h1] at hgen
    cases hgen
  · rw [if_neg h1] at hgen
    by_cases h2 : d.TransactionID = []
    · rw [if_pos h2] at hgen
      cases hgen
    · rw [if_neg h2] at hgen
      simp only [generateQRISString] at hgen
      set B := replaceFirst (q.config.BaseQrString.take (q.config.BaseQrString.length - 4))
        poiStatic poiDynamic with hB
      set A := tag54 ++ pad2 (intStr d.Amount).length ++ intStr d.Amount with hA
      cases hfi : firstIndex? B anchorID with
      | none =>
        rw [hfi] at hgen
        cases hgen
      | some i =>
        rw [hfi] at hgen
        injection hgen with hs
        rw [← hs] at hm hlen ⊢
        obtain ⟨r, hr⟩ := firstIndex_drop B anchorID i hfi
        refine validate_ok_of q (B.take i ++ A ++ B.drop i) ?_ hm ?_ hlen
        · apply (containsSub_iff _ _).mpr
          refine ⟨B.take i ++ A,
            r ++ generateCRC (B.take i ++ A ++ B.drop i), ?_⟩
          rw [← hr]
          simp [List.append_assoc]
        · apply (containsSub_iff _ _).mpr
          refine ⟨B.take i,
            (pad2 (intStr d.Amount).length ++ intStr d.Amount) ++
              (B.drop i ++ generateCRC (B.take i ++ A ++ B.drop i)), ?_⟩
          rw [hA]
          simp [List.append_assoc]

/-- C1 counterexample: `cxCfg` satisfies every premise of the claim —
its base ends in its own 4-character checksum, contains the anchor and
contains the merchant id — and the build at amount 1000 succeeds, yet
re-validating the produced payload fails: the payload is 18 characters,
short of the validator's minimum of 20. -/
theorem roundtrip_counterexample :
    NewQRIS cxCfg = .ok ⟨cxCfg⟩ ∧
    containsSub cxCfg.BaseQrString anchorID = true ∧
    containsSub cxCfg.BaseQrString cxCfg.MerchantID = true ∧
    cxCfg.BaseQrString.drop (cxCfg.BaseQrString.length - 4) =
      generateCRC (cxCfg.BaseQrString.take (cxCfg.BaseQrString.length - 4)) ∧
    GetQRISString ⟨cxCfg⟩ cxData = .ok cxPayload ∧
    ValidateQRISString ⟨cxCfg⟩ cxPayload = .error .tooShort :=
  ⟨by decide, by decide, by decide, by decide, by decide, by decide⟩

/-- C1 instantiated: a concrete 30-character payload built from `wCfg`
re-validates successfully. -/
theorem buildValidate_roundtrip_witness :
    GetQRISString ⟨wCfg⟩ wData = .ok wPayload ∧ 20 ≤ wPayload.length ∧
    containsSub wPayload wCfg.MerchantID = true ∧
    ValidateQRISString ⟨wCfg⟩ wPayload = .ok () :=
  ⟨by decide, by decide, by decide,
    buildValidate_roundtrip ⟨wCfg⟩ wData wPayload (by decide) (by decide) (by decide)⟩

theorem latestLoop_mem (pd : GoStr → Int) (l : List GatewayTx) :
    ∀ (cur : GatewayTx) (curD : Int),
      (latestLoop pd cur curD l).1 = cur ∨ (latestLoop pd cur curD l).1 ∈ l := by
  induction l with
  | nil =>
    intro cur curD
    left
    rfl
  | cons tx rest ih =>
    intro cur curD
    rw [latestLoop]
    split
    · rcases ih tx (pd tx.Date) with h | h
      · right
        rw [h]
        exact List.mem_cons_self _ _
      · right
        exact List.mem_cons_of_mem _ h
    · rcases ih cur curD with h | h
      · left
        exact h
      · right
        exact List.mem_cons_of_mem _ h

theorem latestLoop_snd (pd : GoStr → Int) (l : List GatewayTx) :
    ∀ (cur : GatewayTx) (curD : Int), curD = pd cur.Date →
      (latestLoop pd cur curD l).2 = pd (latestLoop pd cur curD l).1.Date := by
  induction l with
  | nil =>
    intro cur curD h
    simpa [latestLoop] using h
  | cons tx rest ih =>
    intro cur curD h
    rw [latestLoop]
    split
    · exact ih tx (pd tx.Date) rfl
    · exact ih cur curD h

theorem latestLoop_le (pd : GoStr → Int) (l : List GatewayTx) :
    ∀ (cur : GatewayTx) (curD : Int), curD ≤ (latestLoop pd cur curD l).2 := by
  induction l with
  | nil =>
    intro cur curD
    simp [latestLoop]
  | cons tx rest ih =>
    intro cur curD
    rw [latestLoop]
    split
    · next hlt => exact le_of_lt (lt_of_lt_of_le hlt (ih tx (pd tx.Date)))
    · exact ih cur curD

theorem latestLoop_mem_le (pd : GoStr → Int) (l : List GatewayTx) :
    ∀ (cur : GatewayTx) (curD : Int) (tx : GatewayTx), tx ∈ l →
      pd tx.Date ≤ (latestLoop pd cur curD l).2 := by
  induction l with
  | nil =>
    intro cur curD tx h
    cases h
  | cons t rest ih =>
    intro cur curD tx h
    rcases List.mem_cons.mp h with rfl | hmem
    · rw [latestLoop]
      split
      · exact latestLoop_le pd rest tx (pd tx.Date)
      · next hnlt => exact le_trans (not_lt.mp hnlt) (latestLoop_le pd rest cur curD)
    · rw [latestLoop]
      split
      · exact ih _ _ tx hmem
      · exact ih _ _ tx hmem

/-- C7: on a successfully parsed `"success"` response with a non-empty
transaction list (and a well-formed request), `CheckPaymentStatus`
returns `PAID` iff some listed transaction matches the request — exact
parsed amount, `static` qris field, `CR` type, timestamp within the
30-minute recency window of now —; the returned record is then built
from a matching transaction whose timestamp is maximal among all
matches, and with no match it returns `UNPAID` carrying the requested
amount and reference. -/
theorem checkPaymentStatus_spec (pd : GoStr → Int) (now : Int) (reference : GoStr)
    (amount : Int) (resp : GatewayResponse)
    (hs : resp.Status = statusSuccess) (hne : resp.Data ≠ [])
    (hr : reference ≠ []) (ha : 0 < amount) :
    ∃ st : PaymentStatus, CheckPaymentStatus pd now reference amount resp = .ok st ∧
      (st.Status = statusPaid ↔ resp.Data.any (txMatches pd now amount) = true) ∧
      (resp.Data.any (txMatches pd now amount) = true →
        ∃ tx, tx ∈ resp.Data ∧ txMatches pd now amount tx = true ∧
          st = ⟨statusPaid, parseInt64 tx.Amount, tx.IssuerRef, tx.Date,
                tx.BrandName, tx.BuyerRef⟩ ∧
          ∀ tx' ∈ resp.Data, txMatches pd now amount tx' = true →
            pd tx'.Date ≤ pd tx.Date) ∧
      (resp.Data.any (txMatches pd now amount) = false →
        st = ⟨statusUnpaid, amount, reference, [], [], []⟩) := by
  rw [CheckPaymentStatus, if_neg (by push_neg; exact ⟨hr, by omega⟩),
    if_neg (by push_neg; exact ⟨hs, hne⟩)]
  cases hf : resp.Data.filter (txMatches pd now amount) with
  | nil =>
    simp only [hf]
    have hany : resp.Data.any (txMatches pd now amount) = false :=
      List.any_eq_false.mpr (List.filter_eq_nil_iff.mp hf)
    refine ⟨⟨statusUnpaid, amount, reference, [], [], []⟩, rfl, ?_, ?_, fun _ => rfl⟩
    · constructor
      · intro hpaid
        have hps : statusUnpaid = statusPaid := hpaid
        exact absurd hps (by decide)
      · intro hany2
        rw [hany] at hany2
        cases hany2
    · intro hany2
      rw [hany] at hany2
      cases hany2
  | cons t rest =>
    simp only [hf]
    have hsnd := latestLoop_snd pd rest t (pd t.Date) rfl
    have hLmem : (latestLoop pd t (pd t.Date) rest).1 ∈ t :: rest := by
      rcases latestLoop_mem pd rest t (pd t.Date) with h | h
      · rw [h]
        exact List.mem_cons_self _ _
      · exact List.mem_cons_of_mem _ h
    have hLfilter : (latestLoop pd t (pd t.Date) rest).1 ∈
        resp.Data.filter (txMatches pd now amount) := by
      rw [hf]
      exact hLmem
    have hLData : (latestLoop pd t (pd t.Date) rest).1 ∈ resp.Data :=
      (List.mem_filter.mp hLfilter).1
    have hLmatch : txMatches pd now amount (latestLoop pd t (pd t.Date) rest).1 = true :=
      (List.mem_filter.mp hLfilter).2
    have hany : resp.Data.any (txMatches pd now amount) = true :=
      List.any_eq_true.mpr ⟨_, hLData, hLmatch⟩
    have hmax : ∀ tx' ∈ resp.Data, txMatches pd now amount tx' = true →
        pd tx'.Date ≤ pd (latestLoop pd t (pd t.Date) rest).1.Date := by
      intro tx' hd hm
      have hmemf : tx' ∈ resp.Data.filter (txMatches pd now amount) :=
        List.mem_filter.mpr ⟨hd, hm⟩
      rw [hf] at hmemf
      rcases List.mem_cons.mp hmemf with rfl | hmem'
      · rw [← hsnd]
        exact latestLoop_le pd rest tx' (pd tx'.Date)
      · rw [← hsnd]
        exact latestLoop_mem_le pd rest t (pd t.Date) tx' hmem'
    refine ⟨_, rfl, ⟨fun _ => hany, fun _ => rfl⟩, ?_, ?_⟩
    · intro _
      exact ⟨_, hLData, hLmatch, rfl, hmax⟩
    · intro hfalse
      rw [hany] at hfalse
      cases hfalse

/-- C7 instantiated: a concrete matching transaction is reported as
`PAID` with its own record fields. -/
theorem checkPaymentStatus_spec_witness :
    ∃ st : PaymentStatus,
      CheckPaymentStatus wParseDate 100 ("R1".data) 5000 wResp = .ok st ∧
      (st.Status = statusPaid ↔ wResp.Data.any (txMatches wParseDate 100 5000) = true) ∧
      (wResp.Data.any (txMatches wParseDate 100 5000) = true →
        ∃ tx, tx ∈ wResp.Data ∧ txMatches wParseDate 100 5000 tx = true ∧
          st = ⟨statusPaid, parseInt64 tx.Amount, tx.IssuerRef, tx.Date,
                tx.BrandName, tx.BuyerRef⟩ ∧
          ∀ tx' ∈ wResp.Data, txMatches wParseDate 100 5000 tx' = true →
            wParseDate tx'.Date ≤ wParseDate tx.Date) ∧
      (wResp.Data.any (txMatches wParseDate 100 5000) = false →
        st = ⟨statusUnpaid, 5000, "R1".data, [], [], []⟩) :=
  checkPaymentStatus_spec wParseDate 100 ("R1".data) 5000 wResp rfl (by decide)
    (by decide) (by decide)

/-- C8 instantiated: two instances around the same configuration agree
on concrete calls. -/
theorem codec_pure_witness :
    GetQRISString ⟨wCfg⟩ wData = GetQRISString ⟨wCfg⟩ wData ∧
    ValidateQRISString ⟨wCfg⟩ wPayload = ValidateQRISString ⟨wCfg⟩ wPayload ∧
    GenerateQRCode ⟨wCfg⟩ wData = GenerateQRCode ⟨wCfg⟩ wData :=
  (codec_pure ⟨wCfg⟩ ⟨wCfg⟩ anchorID wPayload wData).2.2.2 rfl

end OrderKuota
